import Mathlib

/-!
Verification of the dago execution coordinator
(internal/application/orchestrator/{manager.go, validator.go}).

The Go code is shallowly embedded: Go maps become association lists in
insertion order, time.Now() becomes an explicit clock argument, uuid.New()
becomes a mint counter carried in the machine state, the event bus becomes
a log of successful publishes together with a failure oracle, and the state
store is the repository's in-memory adapter (a map; saves never fail).
Types from the external dago-libs dependency (Graph, Node, NodeState,
GraphState and their methods), which are not part of this repository, are
modelled from the spec where noted.
-/

namespace Dago

/-- Go map lookup on an association list (first binding wins). -/
def getA {α : Type} (k : String) : List (String × α) → Option α
  | [] => none
  | (k', v) :: rest => if k = k' then some v else getA k rest

/-- Go map insert or replace on an association list. -/
def setA {α : Type} (k : String) (v : α) : List (String × α) → List (String × α)
  | [] => [(k, v)]
  | (k', v') :: rest => if k = k' then (k, v) :: rest else (k', v') :: setA k v rest

/-- Go map delete on an association list. -/
def delA {α : Type} (k : String) : List (String × α) → List (String × α)
  | [] => []
  | (k', v') :: rest => if k = k' then rest else (k', v') :: delA k rest

/-- Execution status values from dago-libs domain.
Modelled from the spec: status is one of Pending, Submitted, Running,
Completed, Failed, Cancelled (spec section 3 plus the Submitted value used
by the metrics call in manager.go). -/
inductive ExecutionStatus
  | pending
  | submitted
  | running
  | completed
  | failed
  | cancelled
deriving DecidableEq, Repr

/-- Modelled from the spec: the string form of a status (used only inside
error messages; the exact dago-libs constants are not in this repository). -/
def statusStr : ExecutionStatus → String
  | .pending => "pending"
  | .submitted => "submitted"
  | .running => "running"
  | .completed => "completed"
  | .failed => "failed"
  | .cancelled => "cancelled"

/-- Terminal statuses, spec section 3 invariant R2 and the explicit check in
CancelExecution (manager.go lines 434 to 436). -/
def isTerminal : ExecutionStatus → Bool
  | .completed => true
  | .failed => true
  | .cancelled => true
  | _ => false

/-- Node variant set from dago-libs graph package.
Modelled from the spec: variants are start, executor, router, end. -/
inductive NodeType
  | start
  | executor
  | router
  | end_
deriving DecidableEq, Repr

/-- String form of a node type, as placed in work envelopes. -/
def nodeTypeStr : NodeType → String
  | .start => "start"
  | .executor => "executor"
  | .router => "router"
  | .end_ => "end"

/-- Modelled from the spec: a dago-libs graph.Node carries a type tag and
opaque per-variant configuration which the coordinator never interprets;
its per-variant Validate hook either succeeds or yields an error string
(spec sections 3 and 4.1). The opaque configuration is summarised by the
hook's outcome, the only part the coordinator can observe. -/
structure Node where
  type : NodeType
  validateErr : Option String := none
deriving DecidableEq, Repr

/-- Modelled from the spec: a directed edge (from, to, optional label). -/
structure Edge where
  from_ : String
  to_ : String
  label : String := ""
deriving DecidableEq, Repr

/-- Modelled from the spec: a dago-libs domain.Graph. The Go nodes map is an
association list in insertion order. -/
structure Graph where
  id : String
  version : String
  nodes : List (String × Node)
  edges : List Edge
  entryNode : String := ""
deriving DecidableEq, Repr

/-- Modelled from the spec: Graph.GetNode, map lookup by node id. -/
def Graph.GetNode (g : Graph) (nodeID : String) : Option Node :=
  getA nodeID g.nodes

/-- Modelled from the spec: Graph.GetOutgoingEdges returns the edges whose
from endpoint equals the given node, in edges order (spec property P8:
the first edge in edges order with matching from). -/
def Graph.GetOutgoingEdges (g : Graph) (nodeID : String) : List Edge :=
  g.edges.filter (fun e => e.from_ = nodeID)

/-- Modelled from the spec: a dago-libs domain.NodeState. Timestamps are
abstract clock readings; output is an opaque value. -/
structure NodeState where
  nodeID : String
  status : ExecutionStatus
  startedAt : Option Nat := none
  completedAt : Option Nat := none
  output : Option String := none
  error : String := ""
deriving DecidableEq, Repr

/-- Modelled from the spec: a dago-libs domain.GraphState, the persisted
execution record. The Go NodeStates map is an association list. -/
structure GraphState where
  graphID : String
  graph : Graph
  status : ExecutionStatus
  inputs : List (String × String)
  nodeStates : List (String × NodeState)
  submittedAt : Nat
  completedAt : Option Nat := none
  error : String := ""
deriving DecidableEq, Repr

/-! ## Graph validator (validator.go) -/

/-- validateNode from validator.go: empty node id is rejected, then the
node's own Validate hook runs and its error is surfaced verbatim. -/
def validateNode (nodeID : String) (node : Node) : Option String :=
  if nodeID = "" then some "node ID is required"
  else match node.validateErr with
    | some e => some e
    | none => none

/-- The node loop of Validate: each node is validated (its error wrapped as
invalid node), and duplicate ids are rejected using the seen set. -/
def validateNodes : List (String × Node) → List String → Option String
  | [], _ => none
  | (nodeID, node) :: rest, seen =>
    match validateNode nodeID node with
    | some e => some ("invalid node " ++ nodeID ++ ": " ++ e)
    | none =>
      if seen.contains nodeID then some ("duplicate node ID: " ++ nodeID)
      else validateNodes rest (nodeID :: seen)

/-- The edge loop of Validate: both endpoints of every edge must resolve. -/
def validateEdges (g : Graph) : List Edge → Option String
  | [] => none
  | e :: rest =>
    if (getA e.from_ g.nodes).isNone then
      some ("edge references non-existent source node: " ++ e.from_)
    else if (getA e.to_ g.nodes).isNone then
      some ("edge references non-existent target node: " ++ e.to_)
    else validateEdges g rest

/-- Validate from validator.go: id, version, non-empty nodes, each node,
entry node when non-empty, then each edge. The Go nil-pointer guard has no
counterpart since a Graph value always exists here. -/
def Validate (g : Graph) : Option String :=
  if g.id = "" then some "graph ID is required"
  else if g.version = "" then some "graph version is required"
  else if g.nodes.isEmpty then some "graph must have at least one node"
  else match validateNodes g.nodes [] with
    | some e => some e
    | none =>
      if g.entryNode ≠ "" ∧ (getA g.entryNode g.nodes).isNone then
        some ("entry node " ++ g.entryNode ++ " not found in graph")
      else validateEdges g g.edges

/-! ## Event bus and machine state (manager.go) -/

/-- Topic constants from manager.go lines 17 to 22. -/
def TopicExecutorWork : String := "executor.work"

def TopicRouterWork : String := "router.work"

def TopicNodeCompleted : String := "node.completed"

def TopicGraphEvents : String := "graph.events"

/-- Payload of a ports.Event as built by the manager. Work envelopes carry
node_id, node_type, graph_id (the execution id), state (the execution's
inputs) and node_state (the NodeStates map at publish time); graph events
carry an optional error plus opaque string fields. -/
inductive EventData
  | work (nodeID : String) (nodeType : String) (graphID : String)
      (state : List (String × String)) (nodeState : List (String × NodeState))
  | info (err : Option String) (extra : List (String × String))
deriving DecidableEq, Repr

/-- A ports.Event. The uuid.New() id is modelled as a mint counter value. -/
structure Event where
  id : Nat
  type : String
  timestamp : Nat
  executionID : String
  data : EventData
deriving DecidableEq, Repr

/-- The in-memory executionContext tracked per active execution. The Go
cancelFunc is modelled as the timerCancelled flag: firing it stops the
deadline supervisor. -/
structure ExecCtx where
  graphID : String
  status : ExecutionStatus
  startedAt : Nat
  timerCancelled : Bool := false
deriving DecidableEq, Repr

/-- The manager's observable world: the state store (the repository's
in-memory adapter, whose saves always succeed), the ordered log of
successful publishes, the count of publish attempts, the executions
tracker, and the uuid mint counter. -/
structure MState where
  store : List (String × GraphState)
  published : List (String × Event)
  pubAttempts : Nat
  executions : List (String × ExecCtx)
  nextUuid : Nat
deriving DecidableEq, Repr

/-- Environment oracle: decides whether the n-th publish attempt on a topic
fails at the bus (BusPublishError). -/
structure Env where
  pubFail : Nat → String → Bool

/-- An environment in which every bus publish succeeds. -/
def envOk : Env := ⟨fun _ _ => false⟩

/-- Opaque error text of a failed bus publish (the concrete adapter's
message travels through the manager unchanged). -/
def busErr : String := "bus publish error"

/-- eventBus.Publish: one attempt is consumed; on success the envelope is
appended to the log. -/
def publish (env : Env) (s : MState) (topic : String) (ev : Event) :
    MState × Bool :=
  if env.pubFail s.pubAttempts topic then
    ({ s with pubAttempts := s.pubAttempts + 1 }, false)
  else
    ({ s with pubAttempts := s.pubAttempts + 1,
              published := s.published ++ [(topic, ev)] }, true)

/-- storage.SaveState on the in-memory store: insert or replace. -/
def saveState (s : MState) (graphID : String) (st : GraphState) : MState :=
  { s with store := setA graphID st s.store }

/-- Mint the execution id for the n-th uuid.New() call. -/
def mintId (n : Nat) : String := "exec-" ++ toString n

/-- publishGraphEvent (manager.go lines 387 to 404): build an event with a
fresh uuid and publish it on graph.events, reporting failure to the caller
after logging. -/
def publishGraphEvent (env : Env) (s : MState) (graphID : String)
    (eventType : String) (data : EventData) (now : Nat) : MState × Bool :=
  let ev : Event :=
    { id := s.nextUuid, type := eventType, timestamp := now,
      executionID := graphID, data := data }
  publish env { s with nextUuid := s.nextUuid + 1 } TopicGraphEvents ev

/-- completeGraph (manager.go lines 344 to 384): set the terminal status and
completed_at (and error when non-empty) on the in-memory record, save it,
fire and drop the tracker entry when present, and publish the informational
graph.completed or graph.failed event. Returns the updated world and the
updated in-memory record. -/
def completeGraph (env : Env) (s : MState) (graphID : String)
    (st : GraphState) (status : ExecutionStatus) (errorMsg : String)
    (now : Nat) : MState × GraphState :=
  let st' : GraphState :=
    { st with status := status, completedAt := some now,
              error := if errorMsg ≠ "" then errorMsg else st.error }
  let s1 := saveState s graphID st'
  let s2 := { s1 with executions := delA graphID s1.executions }
  let eventType :=
    if status = ExecutionStatus.failed then "graph.failed"
    else "graph.completed"
  let data := EventData.info (if errorMsg ≠ "" then some errorMsg else none) []
  let (s3, _) := publishGraphEvent env s2 graphID eventType data now
  (s3, st')

/-- findNextNode (manager.go lines 259 to 267): the to endpoint of the first
outgoing edge, or empty if none. -/
def findNextNode (g : Graph) (currentNodeID : String) : String :=
  match g.GetOutgoingEdges currentNodeID with
  | [] => ""
  | e :: _ => e.to_

/-- publishNodeWork (manager.go lines 270 to 341): look up the node (error
if absent), mark its state Running with started_at = now, save, then by
type: executor and router build and publish a work envelope on their topic
followed by a node.started graph event; end drives the record to Completed;
start recursively dispatches the findNextNode successor. The fuel argument
bounds the start-chain recursion, which in Go is unbounded; fuel zero
reports the recursion limit. A node present in the graph but absent from
NodeStates would make the Go code fault on a nil pointer; that unreachable
case is reported as an error here. -/
def publishNodeWork : Nat → Env → MState → String → String → GraphState →
    Nat → MState × GraphState × Option String
  | 0, _, s, _, _, st, _ => (s, st, some "recursion limit")
  | fuel + 1, env, s, graphID, nodeID, st, now =>
    match st.graph.GetNode nodeID with
    | none => (s, st, some ("node not found: " ++ nodeID))
    | some node =>
      match getA nodeID st.nodeStates with
      | none => (s, st, some ("node state missing: " ++ nodeID))
      | some ns =>
        let ns' := { ns with status := ExecutionStatus.running,
                             startedAt := some now }
        let st' := { st with nodeStates := setA nodeID ns' st.nodeStates }
        let s1 := saveState s graphID st'
        match node.type with
        | NodeType.end_ =>
          let (s2, st2) :=
            completeGraph env s1 graphID st' ExecutionStatus.completed "" now
          (s2, st2, none)
        | NodeType.start =>
          let nextNode := findNextNode st'.graph nodeID
          if nextNode ≠ "" then
            publishNodeWork fuel env s1 graphID nextNode st' now
          else (s1, st', none)
        | t =>
          let topic :=
            if t = NodeType.executor then TopicExecutorWork
            else TopicRouterWork
          let ev : Event :=
            { id := s1.nextUuid, type := "node.work", timestamp := now,
              executionID := graphID,
              data := EventData.work nodeID (nodeTypeStr t) graphID
                st'.inputs st'.nodeStates }
          let s2 := { s1 with nextUuid := s1.nextUuid + 1 }
          let (s3, ok) := publish env s2 topic ev
          if ok then
            let (s4, _) := publishGraphEvent env s3 graphID "node.started"
              (EventData.info none [("node_id", nodeID)]) now
            (s4, st', none)
          else (s3, st', some "failed to publish work event")

/-- The parsed completion envelope (section 6.2): the Go type assertions on
the data map yield the empty string for an absent node_id or next_node,
and hasError is the presence of a string under the error key. -/
structure CompletionMsg where
  executionID : String
  nodeID : String
  output : Option String := none
  error : Option String := none
  nextNode : String := ""
deriving DecidableEq, Repr

/-- handleNodeCompleted (manager.go lines 168 to 256): load the record (drop
if missing), locate the node state (drop if missing), stamp completed_at
and set the node Failed with the envelope error or Completed with the
output, save, then on error drive the record to Failed, otherwise select
the successor (router-provided next_node, else findNextNode) and dispatch
it, or drive the record to Completed when there is none. -/
def handleNodeCompleted (fuel : Nat) (env : Env) (s : MState)
    (msg : CompletionMsg) (now : Nat) : MState :=
  match getA msg.executionID s.store with
  | none => s
  | some st =>
    match getA msg.nodeID st.nodeStates with
    | none => s
    | some ns =>
      let hasError := msg.error.isSome
      let errorMsg := msg.error.getD ""
      let ns' :=
        if hasError then
          { ns with completedAt := some now,
                    status := ExecutionStatus.failed, error := errorMsg }
        else
          { ns with completedAt := some now,
                    status := ExecutionStatus.completed, output := msg.output }
      let st1 := { st with nodeStates := setA msg.nodeID ns' st.nodeStates }
      let s1 := saveState s msg.executionID st1
      if hasError then
        (completeGraph env s1 msg.executionID st1 ExecutionStatus.failed
          errorMsg now).1
      else
        let nextNode :=
          if msg.nextNode ≠ "" then msg.nextNode
          else findNextNode st1.graph msg.nodeID
        if nextNode = "" then
          (completeGraph env s1 msg.executionID st1 ExecutionStatus.completed
            "" now).1
        else
          (publishNodeWork fuel env s1 msg.executionID nextNode st1 now).1

/-- The fresh Pending node state built by SubmitGraph for one node. -/
def pendingNS (nodeID : String) : NodeState :=
  { nodeID := nodeID, status := ExecutionStatus.pending }

/-- SubmitGraph (manager.go lines 91 to 165): validate (surface the error
and write nothing on failure), mint the execution id, build the initial
record with status Running and every node Pending, save it, publish the
GraphSubmitted event (on bus failure the error is returned to the caller),
insert the tracker entry with its deadline timer, and dispatch the entry
node, returning the execution id even when that dispatch fails. -/
def SubmitGraph (fuel : Nat) (env : Env) (s : MState) (g : Graph)
    (inputs : List (String × String)) (now : Nat) :
    MState × Except String String :=
  match Validate g with
  | some e => (s, Except.error ("validation failed: " ++ e))
  | none =>
    let graphID := mintId s.nextUuid
    let s0 := { s with nextUuid := s.nextUuid + 1 }
    let st : GraphState :=
      { graphID := graphID, graph := g, status := ExecutionStatus.running,
        inputs := inputs,
        nodeStates := g.nodes.map (fun p => (p.1, pendingNS p.1)),
        submittedAt := now }
    let s1 := saveState s0 graphID st
    let (s2, ok) := publishGraphEvent env s1 graphID "graph.submitted"
      (EventData.info none [("original_graph_id", g.id)]) now
    if !ok then (s2, Except.error busErr)
    else
      let ec : ExecCtx :=
        { graphID := graphID, status := ExecutionStatus.running,
          startedAt := now }
      let s3 := { s2 with executions := setA graphID ec s2.executions }
      let (s4, _, _) := publishNodeWork fuel env s3 graphID g.entryNode st now
      (s4, Except.ok graphID)

/-- CancelExecution (manager.go lines 422 to 472): look up the tracker entry
(error when absent), reject when the tracked status is terminal, fire the
timer and mark the tracker Cancelled, then load the record, set it
Cancelled with completed_at, save, publish graph.cancelled, and drop the
tracker entry. -/
def CancelExecution (env : Env) (s : MState) (graphID : String) (now : Nat) :
    MState × Except String Unit :=
  match getA graphID s.executions with
  | none => (s, Except.error ("execution not found: " ++ graphID))
  | some ec =>
    if isTerminal ec.status then
      (s, Except.error
        ("execution already in terminal state: " ++ statusStr ec.status))
    else
      let ec' := { ec with timerCancelled := true,
                           status := ExecutionStatus.cancelled }
      let s1 := { s with executions := setA graphID ec' s.executions }
      match getA graphID s1.store with
      | none => (s1, Except.error "failed to get state")
      | some st =>
        let st' := { st with status := ExecutionStatus.cancelled,
                             completedAt := some now }
        let s2 := saveState s1 graphID st'
        let (s3, _) := publishGraphEvent env s2 graphID "graph.cancelled"
          (EventData.info none []) now
        let s4 := { s3 with executions := delA graphID s3.executions }
        (s4, Except.ok ())

/-- handleTimeout (manager.go lines 485 to 508): load the record (give up
when absent) and drive it to Failed with the execution timeout error. -/
def handleTimeout (env : Env) (s : MState) (graphID : String) (now : Nat) :
    MState :=
  match getA graphID s.store with
  | none => s
  | some st =>
    (completeGraph env s graphID st ExecutionStatus.failed
      "execution timeout" now).1

/-- GetStatus (manager.go lines 407 to 419): read-through to the store. -/
def GetStatus (s : MState) (graphID : String) : Except String GraphState :=
  match getA graphID s.store with
  | none => Except.error "failed to get state"
  | some st => Except.ok st

/-- The node ids of the work envelopes published on the two work topics, in
publication order: the observable dispatch trace. -/
def workTargets (l : List (String × Event)) : List String :=
  l.filterMap (fun p =>
    if p.1 = TopicExecutorWork ∨ p.1 = TopicRouterWork then
      match p.2.data with
      | EventData.work n _ _ _ _ => some n
      | _ => none
    else none)

/-- What completeGraph writes into the record. -/
def completedRecord (st : GraphState) (status : ExecutionStatus)
    (errorMsg : String) (now : Nat) : GraphState :=
  { st with status := status, completedAt := some now,
            error := if errorMsg ≠ "" then errorMsg else st.error }

/-- A node state marked Running at the given clock. -/
def runningNS (ns : NodeState) (now : Nat) : NodeState :=
  { ns with status := ExecutionStatus.running, startedAt := some now }

/-- The record after dispatch marks one node Running at the given clock. -/
def runningUpd (st : GraphState) (nodeID : String) (ns : NodeState)
    (now : Nat) : GraphState :=
  { st with nodeStates := setA nodeID (runningNS ns now) st.nodeStates }

/-- A node state stamped by a successful completion: completed_at set,
status Completed, output stored. -/
def completedNS (ns : NodeState) (output : Option String) (now : Nat) :
    NodeState :=
  { ns with completedAt := some now, status := ExecutionStatus.completed,
            output := output }

/-- A node state stamped by a failing completion: completed_at set, status
Failed, error stored. -/
def failedNS (ns : NodeState) (e : String) (now : Nat) : NodeState :=
  { ns with completedAt := some now, status := ExecutionStatus.failed,
            error := e }

/-- The record after a successful completion updates one node. -/
def succUpd (st : GraphState) (msg : CompletionMsg) (ns : NodeState)
    (now : Nat) : GraphState :=
  { st with nodeStates := setA msg.nodeID (completedNS ns msg.output now) st.nodeStates }

/-- The record after a failing completion updates one node. -/
def failUpd (st : GraphState) (msg : CompletionMsg) (ns : NodeState)
    (e : String) (now : Nat) : GraphState :=
  { st with nodeStates := setA msg.nodeID (failedNS ns e now) st.nodeStates }

/-- The initial record SubmitGraph builds: status Running, every node of the
graph Pending, submitted_at the current clock. -/
def initRecord (g : Graph) (inputs : List (String × String))
    (graphID : String) (now : Nat) : GraphState :=
  { graphID := graphID, graph := g, status := ExecutionStatus.running,
    inputs := inputs,
    nodeStates := g.nodes.map (fun p => (p.1, pendingNS p.1)),
    submittedAt := now }

/-- The informational graph.submitted event built by SubmitGraph. -/
def submittedEvent (uuid : Nat) (graphID : String) (originalID : String)
    (now : Nat) : Event :=
  { id := uuid, type := "graph.submitted", timestamp := now,
    executionID := graphID,
    data := EventData.info none [("original_graph_id", originalID)] }

/-- The tracker entry SubmitGraph inserts. -/
def trackerEntry (graphID : String) (now : Nat) : ExecCtx :=
  { graphID := graphID, status := ExecutionStatus.running, startedAt := now }

/-- The work envelope publishNodeWork builds for an executor or router node:
node_id, node_type, graph_id equal to the execution id, state equal to the
inputs, node_state equal to the NodeStates map at publish time. -/
def workEnvelope (uuid : Nat) (graphID : String) (nodeID : String)
    (t : NodeType) (st : GraphState) (now : Nat) : Event :=
  { id := uuid, type := "node.work", timestamp := now, executionID := graphID,
    data := EventData.work nodeID (nodeTypeStr t) graphID st.inputs
      st.nodeStates }

/-- The informational node.started event published after a work envelope. -/
def nodeStartedEvent (uuid : Nat) (graphID : String) (nodeID : String)
    (now : Nat) : Event :=
  { id := uuid, type := "node.started", timestamp := now,
    executionID := graphID,
    data := EventData.info none [("node_id", nodeID)] }

/-- Violation of one of the admission invariants I1 to I5: empty nodes map,
empty id or version, an edge endpoint that does not resolve, an empty node
id, or a non-empty entry_node that does not resolve. -/
def violatesAdmission (g : Graph) : Prop :=
  g.nodes = [] ∨ g.id = "" ∨ g.version = ""
  ∨ (∃ e ∈ g.edges, getA e.from_ g.nodes = none ∨ getA e.to_ g.nodes = none)
  ∨ (∃ p ∈ g.nodes, p.1 = "")
  ∨ (g.entryNode ≠ "" ∧ getA g.entryNode g.nodes = none)

/-! ## Concrete fixtures -/

/-- The empty world: nothing stored, nothing published, nothing tracked. -/
def s0 : MState :=
  { store := [], published := [], pubAttempts := 0, executions := [],
    nextUuid := 0 }

/-- Spec seed scenario 1: the linear graph A(start) to B(executor) to
C(end), entry A. -/
def gLin : Graph :=
  { id := "g", version := "1",
    nodes := [("A", { type := NodeType.start }),
              ("B", { type := NodeType.executor }),
              ("C", { type := NodeType.end_ })],
    edges := [{ from_ := "A", to_ := "B" }, { from_ := "B", to_ := "C" }],
    entryNode := "A" }

/-- A single executor node A as entry, no edges. -/
def gExe : Graph :=
  { id := "g", version := "1",
    nodes := [("A", { type := NodeType.executor })],
    edges := [], entryNode := "A" }

/-- A single executor node A with an empty entry_node. -/
def gNoEntry : Graph :=
  { id := "g", version := "1",
    nodes := [("A", { type := NodeType.executor })],
    edges := [], entryNode := "" }

/-- An environment whose very first publish attempt fails. -/
def envFail0 : Env := ⟨fun n _ => n == 0⟩

/-- Submission of the entry-less single-node graph into the empty world. -/
def c1s1 : MState := (SubmitGraph 4 envOk s0 gNoEntry [] 1).1

/-- Cancellation right after that submission: the record is Cancelled and
the tracker entry is gone. -/
def c1s2 : MState := (CancelExecution envOk c1s1 "exec-0" 2).1

/-- A late successful completion envelope for node A of that execution. -/
def c1msg : CompletionMsg :=
  { executionID := "exec-0", nodeID := "A", output := some "out" }

/-- The world after the late completion event hits the cancelled record. -/
def c1s3 : MState := handleNodeCompleted 4 envOk c1s2 c1msg 3

/-- A Pending node state for node A. -/
def wNs : NodeState := { nodeID := "A", status := ExecutionStatus.pending }

/-- A router node value. -/
def nodeRouter : Node := { type := NodeType.router }

/-- An executor node value. -/
def nodeExec : Node := { type := NodeType.executor }

/-- Spec seed scenario 2 shape: router R whose only edge points to X, with
an off-edge executor Y that a router override can select. -/
def c4graph : Graph :=
  { id := "g", version := "1",
    nodes := [("R", nodeRouter), ("X", nodeExec), ("Y", nodeExec)],
    edges := [{ from_ := "R", to_ := "X" }], entryNode := "R" }

/-- A running execution of c4graph with R Running and X, Y Pending. -/
def c4st : GraphState :=
  { graphID := "e4", graph := c4graph, status := ExecutionStatus.running,
    inputs := [],
    nodeStates :=
      [("R", { nodeID := "R", status := ExecutionStatus.running }),
       ("X", { nodeID := "X", status := ExecutionStatus.pending }),
       ("Y", { nodeID := "Y", status := ExecutionStatus.pending })],
    submittedAt := 0 }

/-- A world holding the c4st execution. -/
def c4s : MState :=
  { store := [("e4", c4st)], published := [], pubAttempts := 0,
    executions := [], nextUuid := 0 }

/-- A router completion for R carrying the override next_node Y. -/
def c4msg : CompletionMsg :=
  { executionID := "e4", nodeID := "R", output := some "o", nextNode := "Y" }

/-- A running execution of the edge-less single-node graph. -/
def c4stc : GraphState :=
  { graphID := "e5", graph := gNoEntry, status := ExecutionStatus.running,
    inputs := [], nodeStates := [("A", wNs)], submittedAt := 0 }

/-- A world holding the c4stc execution. -/
def c4sc : MState :=
  { store := [("e5", c4stc)], published := [], pubAttempts := 0,
    executions := [], nextUuid := 0 }

/-- A successful completion for node A with no router override. -/
def c4msgc : CompletionMsg :=
  { executionID := "e5", nodeID := "A", output := some "o" }

/-- A two-executor graph A then B. -/
def c5graph : Graph :=
  { id := "g", version := "1",
    nodes := [("A", nodeExec), ("B", nodeExec)],
    edges := [{ from_ := "A", to_ := "B" }], entryNode := "A" }

/-- The Running node state of A in the c5 execution. -/
def c5nsA : NodeState :=
  { nodeID := "A", status := ExecutionStatus.running, startedAt := some 1 }

/-- A running execution of c5graph: A Running, B still Pending. -/
def c5st : GraphState :=
  { graphID := "e6", graph := c5graph, status := ExecutionStatus.running,
    inputs := [],
    nodeStates := [("A", c5nsA),
                   ("B", { nodeID := "B", status := ExecutionStatus.pending })],
    submittedAt := 0 }

/-- A world holding the c5st execution. -/
def c5s : MState :=
  { store := [("e6", c5st)], published := [], pubAttempts := 0,
    executions := [], nextUuid := 0 }

/-- A failing completion envelope for node A. -/
def c5msg : CompletionMsg :=
  { executionID := "e6", nodeID := "A", error := some "boom" }

/-- A single end node graph. -/
def c9graph : Graph :=
  { id := "g", version := "1",
    nodes := [("E", { type := NodeType.end_ })],
    edges := [], entryNode := "E" }

/-- The Pending node state of E. -/
def c9ns : NodeState := { nodeID := "E", status := ExecutionStatus.pending }

/-- A running execution of c9graph with E Pending. -/
def c9st : GraphState :=
  { graphID := "e9", graph := c9graph, status := ExecutionStatus.running,
    inputs := [], nodeStates := [("E", c9ns)], submittedAt := 0 }

/-- A world holding the c9st execution. -/
def c9s : MState :=
  { store := [("e9", c9st)], published := [], pubAttempts := 0,
    executions := [], nextUuid := 0 }

/-- An invalid graph: the only edge hangs off the missing source node X
(spec seed scenario 6). -/
def gBad : Graph :=
  { id := "g", version := "1", nodes := [("A", nodeExec)],
    edges := [{ from_ := "X", to_ := "A" }], entryNode := "A" }

/-- The Pending node state of start node A in the c8 execution. -/
def c8ns : NodeState := { nodeID := "A", status := ExecutionStatus.pending }

/-- A freshly submitted execution of the linear graph, all nodes Pending. -/
def c8st : GraphState :=
  { graphID := "e8", graph := gLin, status := ExecutionStatus.running,
    inputs := [],
    nodeStates := [("A", c8ns),
                   ("B", { nodeID := "B", status := ExecutionStatus.pending }),
                   ("C", { nodeID := "C", status := ExecutionStatus.pending })],
    submittedAt := 0 }

/-- A world holding the c8st execution. -/
def c8s : MState :=
  { store := [("e8", c8st)], published := [], pubAttempts := 0,
    executions := [], nextUuid := 0 }

/-- A cancelled record whose node A is still Pending. -/
def wSt : GraphState :=
  { graphID := "e1", graph := gNoEntry, status := ExecutionStatus.cancelled,
    inputs := [], nodeStates := [("A", wNs)], submittedAt := 0 }

/-- A world holding only the cancelled record, with an empty tracker. -/
def wS : MState :=
  { store := [("e1", wSt)], published := [], pubAttempts := 0,
    executions := [], nextUuid := 5 }

/-- A failing completion envelope for node A of that execution. -/
def wMsg : CompletionMsg :=
  { executionID := "e1", nodeID := "A", error := some "boom" }

/-- A tracker entry whose tracked status is terminal. -/
def wEc : ExecCtx :=
  { graphID := "e2", status := ExecutionStatus.completed, startedAt := 0 }

/-- A world whose tracker holds a terminal entry for e2. -/
def wS3 : MState :=
  { store := [], published := [], pubAttempts := 0,
    executions := [("e2", wEc)], nextUuid := 0 }

/-- An environment in which every publish on executor.work fails while
every other topic succeeds. -/
def envWorkFail : Env := ⟨fun _ t => t == TopicExecutorWork⟩

/-! ## Association list lemmas -/

theorem getA_setA_self {α : Type} (k : String) (v : α) (l : List (String × α)) :
    getA k (setA k v l) = some v := by
  induction l with
  | nil => simp [getA, setA]
  | cons hd tl ih =>
    by_cases h : k = hd.1
    · simp [setA, getA, h]
    · simp [setA, getA, h, ih]

theorem getA_setA_ne {α : Type} {k k' : String} (v : α) (l : List (String × α))
    (h : k' ≠ k) : getA k' (setA k v l) = getA k' l := by
  induction l with
  | nil => simp [getA, setA, h]
  | cons hd tl ih =>
    by_cases hk : k = hd.1
    · subst hk
      simp [setA, getA, h]
    · by_cases hk' : k' = hd.1
      · simp [setA, getA, hk, hk']
      · simp [setA, getA, hk, hk', ih]

theorem getA_setA_isSome {α : Type} (k k' : String) (v : α)
    (l : List (String × α)) (h : (getA k l).isSome = true) :
    (getA k (setA k' v l)).isSome = true := by
  by_cases hk : k = k'
  · subst hk
    simp [getA_setA_self]
  · rwa [getA_setA_ne v l hk]

theorem getA_map_pending (k : String) (nodes : List (String × Node)) :
    getA k (nodes.map (fun p => (p.1, pendingNS p.1)))
      = (getA k nodes).map (fun _ => pendingNS k) := by
  induction nodes with
  | nil => simp [getA]
  | cons hd tl ih =>
    by_cases h : k = hd.1
    · subst h
      simp [getA]
    · simp [getA, h, ih]

theorem getA_eq_none_of_no_key {α : Type} (k : String)
    (l : List (String × α)) (h : ∀ p ∈ l, p.1 ≠ k) : getA k l = none := by
  induction l with
  | nil => rfl
  | cons hd tl ih =>
    have hk : hd.1 ≠ k := h hd (by simp)
    simp only [getA]
    rw [if_neg (fun he => hk he.symm)]
    exact ih (fun p hp => h p (by simp [hp]))

/-! ## Validator soundness lemmas -/

theorem validateNodes_none_ids (l : List (String × Node)) :
    ∀ seen, validateNodes l seen = none → ∀ p ∈ l, p.1 ≠ "" := by
  induction l with
  | nil => simp
  | cons hd tl ih =>
    intro seen h p hp
    rcases hd with ⟨nodeID, node⟩
    simp only [validateNodes] at h
    cases hvn : validateNode nodeID node with
    | some e => rw [hvn] at h; exact absurd h (by simp)
    | none =>
      rw [hvn] at h
      by_cases hs : seen.contains nodeID
      · rw [if_pos hs] at h
        exact absurd h (by simp)
      · rw [if_neg hs] at h
        have hid : nodeID ≠ "" := by
          intro hemp
          rw [validateNode, if_pos hemp] at hvn
          exact absurd hvn (by simp)
        rcases List.mem_cons.mp hp with hp' | hp'
        · rw [hp']
          exact hid
        · exact ih _ h p hp' 

theorem validateEdges_none_endpoints (g : Graph) (l : List Edge)
    (h : validateEdges g l = none) :
    ∀ e ∈ l, (getA e.from_ g.nodes).isSome ∧ (getA e.to_ g.nodes).isSome := by
  induction l with
  | nil => simp
  | cons hd tl ih =>
    intro e he
    simp only [validateEdges] at h
    by_cases h1 : (getA hd.from_ g.nodes).isNone
    · rw [if_pos h1] at h
      exact absurd h (by simp)
    · rw [if_neg h1] at h
      by_cases h2 : (getA hd.to_ g.nodes).isNone
      · rw [if_pos h2] at h
        exact absurd h (by simp)
      · rw [if_neg h2] at h
        rcases List.mem_cons.mp he with he' | he'
        · subst he' 
          constructor
          · simpa [Option.isNone_iff_eq_none, Option.isSome_iff_ne_none]
              using h1
          · simpa [Option.isNone_iff_eq_none, Option.isSome_iff_ne_none]
              using h2
        · exact ih h e he' 

theorem Validate_none_sound (g : Graph) (h : Validate g = none) :
    g.id ≠ "" ∧ g.version ≠ "" ∧ g.nodes ≠ []
    ∧ (∀ p ∈ g.nodes, p.1 ≠ "")
    ∧ (g.entryNode ≠ "" → (getA g.entryNode g.nodes).isSome)
    ∧ ∀ e ∈ g.edges,
        (getA e.from_ g.nodes).isSome ∧ (getA e.to_ g.nodes).isSome := by
  rw [Validate] at h
  by_cases h1 : g.id = ""
  · rw [if_pos h1] at h
    exact absurd h (by simp)
  · rw [if_neg h1] at h
    by_cases h2 : g.version = ""
    · rw [if_pos h2] at h
      exact absurd h (by simp)
    · rw [if_neg h2] at h
      by_cases h3 : g.nodes.isEmpty
      · rw [if_pos h3] at h
        exact absurd h (by simp)
      · rw [if_neg h3] at h
        cases hvn : validateNodes g.nodes [] with
        | some e => rw [hvn] at h; exact absurd h (by simp)
        | none =>
          rw [hvn] at h
          by_cases h4 : g.entryNode ≠ "" ∧ (getA g.entryNode g.nodes).isNone
          · rw [if_pos h4] at h
            exact absurd h (by simp)
          · rw [if_neg h4] at h
            refine ⟨h1, h2, ?_, validateNodes_none_ids g.nodes [] hvn, ?_, ?_⟩
            · intro hnil
              rw [hnil] at h3
              exact h3 rfl
            · intro hent
              by_contra hns
              exact h4 ⟨hent, by
                simpa [Option.isNone_iff_eq_none, Option.isSome_iff_ne_none]
                  using hns⟩
            · exact validateEdges_none_endpoints g g.edges h

theorem pnw_notFound (fuel : Nat) (env : Env) (s : MState)
    (graphID nodeID : String) (st : GraphState) (now : Nat)
    (hn : st.graph.GetNode nodeID = none) :
    publishNodeWork (fuel + 1) env s graphID nodeID st now
      = (s, st, some ("node not found: " ++ nodeID)) := by
  simp [publishNodeWork, hn]

/-! ## Bus and completion helper lemmas -/

theorem publish_store (env : Env) (s : MState) (topic : String) (ev : Event) :
    ((publish env s topic ev).1).store = s.store := by
  simp only [publish]
  split <;> rfl

theorem publish_executions (env : Env) (s : MState) (topic : String)
    (ev : Event) : ((publish env s topic ev).1).executions = s.executions := by
  simp only [publish]
  split <;> rfl

theorem publishGraphEvent_store (env : Env) (s : MState) (graphID : String)
    (eventType : String) (data : EventData) (now : Nat) :
    ((publishGraphEvent env s graphID eventType data now).1).store
      = s.store := by
  simp only [publishGraphEvent]
  exact publish_store ..

theorem publishGraphEvent_executions (env : Env) (s : MState)
    (graphID : String) (eventType : String) (data : EventData) (now : Nat) :
    ((publishGraphEvent env s graphID eventType data now).1).executions
      = s.executions := by
  simp only [publishGraphEvent]
  exact publish_executions ..

theorem workTargets_append (a b : List (String × Event)) :
    workTargets (a ++ b) = workTargets a ++ workTargets b := by
  simp [workTargets]

theorem workTargets_graphEvent (ev : Event) :
    workTargets [(TopicGraphEvents, ev)] = [] := by
  simp [workTargets, TopicGraphEvents, TopicExecutorWork, TopicRouterWork]

theorem workTargets_exec_pair (u1 u2 : Nat) (gid n nid : String)
    (t : NodeType) (st : GraphState) (now : Nat) :
    workTargets [(TopicExecutorWork, workEnvelope u1 gid n t st now),
                 (TopicGraphEvents, nodeStartedEvent u2 gid nid now)]
      = [n] := by
  simp [workTargets, workEnvelope, nodeStartedEvent, TopicExecutorWork,
    TopicRouterWork, TopicGraphEvents]

theorem workTargets_router_pair (u1 u2 : Nat) (gid n nid : String)
    (t : NodeType) (st : GraphState) (now : Nat) :
    workTargets [(TopicRouterWork, workEnvelope u1 gid n t st now),
                 (TopicGraphEvents, nodeStartedEvent u2 gid nid now)]
      = [n] := by
  simp [workTargets, workEnvelope, nodeStartedEvent, TopicExecutorWork,
    TopicRouterWork, TopicGraphEvents]

theorem publish_workTargets_graphEvents (env : Env) (s : MState) (ev : Event) :
    workTargets (((publish env s TopicGraphEvents ev).1).published)
      = workTargets s.published := by
  simp only [publish]
  split
  · rfl
  · simp [workTargets_append, workTargets_graphEvent]

theorem publishGraphEvent_workTargets (env : Env) (s : MState)
    (graphID : String) (eventType : String) (data : EventData) (now : Nat) :
    workTargets (((publishGraphEvent env s graphID eventType data now).1).published)
      = workTargets s.published := by
  simp only [publishGraphEvent]
  exact publish_workTargets_graphEvents ..

theorem completeGraph_store (env : Env) (s : MState) (graphID : String)
    (st : GraphState) (status : ExecutionStatus) (errorMsg : String)
    (now : Nat) :
    ((completeGraph env s graphID st status errorMsg now).1).store
      = setA graphID (completedRecord st status errorMsg now) s.store := by
  simp only [completeGraph, completedRecord, saveState]
  rw [publishGraphEvent_store]

theorem completeGraph_executions (env : Env) (s : MState) (graphID : String)
    (st : GraphState) (status : ExecutionStatus) (errorMsg : String)
    (now : Nat) :
    ((completeGraph env s graphID st status errorMsg now).1).executions
      = delA graphID s.executions := by
  simp only [completeGraph, saveState]
  rw [publishGraphEvent_executions]

theorem completeGraph_workTargets (env : Env) (s : MState) (graphID : String)
    (st : GraphState) (status : ExecutionStatus) (errorMsg : String)
    (now : Nat) :
    workTargets (((completeGraph env s graphID st status errorMsg now).1).published)
      = workTargets s.published := by
  simp only [completeGraph, saveState]
  rw [publishGraphEvent_workTargets]

/-! ## Completion handler reduction lemmas -/

theorem hnc_error_eq (fuel : Nat) (env : Env) (s : MState)
    (msg : CompletionMsg) (st : GraphState) (ns : NodeState) (e : String)
    (now : Nat)
    (h1 : getA msg.executionID s.store = some st)
    (h2 : getA msg.nodeID st.nodeStates = some ns)
    (he : msg.error = some e) :
    handleNodeCompleted fuel env s msg now
      = (completeGraph env
          (saveState s msg.executionID (failUpd st msg ns e now))
          msg.executionID (failUpd st msg ns e now)
          ExecutionStatus.failed e now).1 := by
  simp [handleNodeCompleted, h1, h2, he, failUpd, failedNS]

theorem hnc_success_next (fuel : Nat) (env : Env) (s : MState)
    (msg : CompletionMsg) (st : GraphState) (ns : NodeState) (now : Nat)
    (h1 : getA msg.executionID s.store = some st)
    (h2 : getA msg.nodeID st.nodeStates = some ns)
    (hne : msg.error = none)
    (hnn : msg.nextNode ≠ "") :
    handleNodeCompleted fuel env s msg now
      = (publishNodeWork fuel env
          (saveState s msg.executionID (succUpd st msg ns now))
          msg.executionID msg.nextNode (succUpd st msg ns now) now).1 := by
  simp [handleNodeCompleted, h1, h2, hne, hnn, succUpd, completedNS]

theorem hnc_success_edge (fuel : Nat) (env : Env) (s : MState)
    (msg : CompletionMsg) (st : GraphState) (ns : NodeState) (now : Nat)
    (nx : String)
    (h1 : getA msg.executionID s.store = some st)
    (h2 : getA msg.nodeID st.nodeStates = some ns)
    (hne : msg.error = none)
    (hnn : msg.nextNode = "")
    (hfind : findNextNode st.graph msg.nodeID = nx)
    (hx : nx ≠ "") :
    handleNodeCompleted fuel env s msg now
      = (publishNodeWork fuel env
          (saveState s msg.executionID (succUpd st msg ns now))
          msg.executionID nx (succUpd st msg ns now) now).1 := by
  simp [handleNodeCompleted, h1, h2, hne, hnn, succUpd, completedNS, hfind,
    hx]

theorem hnc_success_complete (fuel : Nat) (env : Env) (s : MState)
    (msg : CompletionMsg) (st : GraphState) (ns : NodeState) (now : Nat)
    (h1 : getA msg.executionID s.store = some st)
    (h2 : getA msg.nodeID st.nodeStates = some ns)
    (hne : msg.error = none)
    (hnn : msg.nextNode = "")
    (hfind : findNextNode st.graph msg.nodeID = "") :
    handleNodeCompleted fuel env s msg now
      = (completeGraph env
          (saveState s msg.executionID (succUpd st msg ns now))
          msg.executionID (succUpd st msg ns now)
          ExecutionStatus.completed "" now).1 := by
  simp [handleNodeCompleted, h1, h2, hne, hnn, succUpd, completedNS, hfind]

/-! ## SubmitGraph shape lemmas -/

theorem SubmitGraph_valid_eq (fuel : Nat) (env : Env) (s : MState) (g : Graph)
    (inputs : List (String × String)) (now : Nat)
    (hv : Validate g = none)
    (hok : env.pubFail s.pubAttempts TopicGraphEvents = false) :
    SubmitGraph fuel env s g inputs now
      = ((publishNodeWork fuel env
            { store := setA (mintId s.nextUuid)
                (initRecord g inputs (mintId s.nextUuid) now) s.store,
              published := s.published
                ++ [(TopicGraphEvents,
                     submittedEvent (s.nextUuid + 1) (mintId s.nextUuid)
                       g.id now)],
              pubAttempts := s.pubAttempts + 1,
              executions := setA (mintId s.nextUuid)
                (trackerEntry (mintId s.nextUuid) now) s.executions,
              nextUuid := s.nextUuid + 2 }
            (mintId s.nextUuid) g.entryNode
            (initRecord g inputs (mintId s.nextUuid) now) now).1,
         Except.ok (mintId s.nextUuid)) := by
  simp [SubmitGraph, hv, publishGraphEvent, publish, saveState, hok,
    initRecord, submittedEvent, trackerEntry]

theorem SubmitGraph_pubfail_eq (fuel : Nat) (env : Env) (s : MState)
    (g : Graph) (inputs : List (String × String)) (now : Nat)
    (hv : Validate g = none)
    (hfail : env.pubFail s.pubAttempts TopicGraphEvents = true) :
    SubmitGraph fuel env s g inputs now
      = ({ store := setA (mintId s.nextUuid)
             (initRecord g inputs (mintId s.nextUuid) now) s.store,
           published := s.published,
           pubAttempts := s.pubAttempts + 1,
           executions := s.executions,
           nextUuid := s.nextUuid + 2 },
         Except.error busErr) := by
  simp [SubmitGraph, hv, publishGraphEvent, publish, saveState, hfail,
    initRecord]

/-! ## Dispatch case lemmas -/

theorem pnw_executor_ok (fuel : Nat) (env : Env) (s : MState)
    (graphID nodeID : String) (st : GraphState) (now : Nat) (node : Node)
    (ns : NodeState)
    (hn : st.graph.GetNode nodeID = some node)
    (ht : node.type = NodeType.executor)
    (hns : getA nodeID st.nodeStates = some ns)
    (h1 : env.pubFail s.pubAttempts TopicExecutorWork = false)
    (h2 : env.pubFail (s.pubAttempts + 1) TopicGraphEvents = false) :
    publishNodeWork (fuel + 1) env s graphID nodeID st now
      = ({ store := setA graphID (runningUpd st nodeID ns now) s.store,
           published := s.published
             ++ [(TopicExecutorWork,
                  workEnvelope s.nextUuid graphID nodeID NodeType.executor
                    (runningUpd st nodeID ns now) now),
                 (TopicGraphEvents,
                  nodeStartedEvent (s.nextUuid + 1) graphID nodeID now)],
           pubAttempts := s.pubAttempts + 2,
           executions := s.executions,
           nextUuid := s.nextUuid + 2 },
         runningUpd st nodeID ns now, none) := by
  simp [publishNodeWork, hn, hns, ht, saveState, publish, publishGraphEvent,
    runningUpd, runningNS, workEnvelope, nodeStartedEvent, h1, h2]

theorem pnw_executor_fail (fuel : Nat) (env : Env) (s : MState)
    (graphID nodeID : String) (st : GraphState) (now : Nat) (node : Node)
    (ns : NodeState)
    (hn : st.graph.GetNode nodeID = some node)
    (ht : node.type = NodeType.executor)
    (hns : getA nodeID st.nodeStates = some ns)
    (h1 : env.pubFail s.pubAttempts TopicExecutorWork = true) :
    publishNodeWork (fuel + 1) env s graphID nodeID st now
      = ({ store := setA graphID (runningUpd st nodeID ns now) s.store,
           published := s.published,
           pubAttempts := s.pubAttempts + 1,
           executions := s.executions,
           nextUuid := s.nextUuid + 1 },
         runningUpd st nodeID ns now, some "failed to publish work event") := by
  simp [publishNodeWork, hn, hns, ht, saveState, publish, publishGraphEvent,
    runningUpd, runningNS, h1]

theorem pnw_router_ok (fuel : Nat) (env : Env) (s : MState)
    (graphID nodeID : String) (st : GraphState) (now : Nat) (node : Node)
    (ns : NodeState)
    (hn : st.graph.GetNode nodeID = some node)
    (ht : node.type = NodeType.router)
    (hns : getA nodeID st.nodeStates = some ns)
    (h1 : env.pubFail s.pubAttempts TopicRouterWork = false)
    (h2 : env.pubFail (s.pubAttempts + 1) TopicGraphEvents = false) :
    publishNodeWork (fuel + 1) env s graphID nodeID st now
      = ({ store := setA graphID (runningUpd st nodeID ns now) s.store,
           published := s.published
             ++ [(TopicRouterWork,
                  workEnvelope s.nextUuid graphID nodeID NodeType.router
                    (runningUpd st nodeID ns now) now),
                 (TopicGraphEvents,
                  nodeStartedEvent (s.nextUuid + 1) graphID nodeID now)],
           pubAttempts := s.pubAttempts + 2,
           executions := s.executions,
           nextUuid := s.nextUuid + 2 },
         runningUpd st nodeID ns now, none) := by
  simp [publishNodeWork, hn, hns, ht, saveState, publish, publishGraphEvent,
    runningUpd, runningNS, workEnvelope, nodeStartedEvent, h1, h2]

theorem pnw_end (fuel : Nat) (env : Env) (s : MState)
    (graphID nodeID : String) (st : GraphState) (now : Nat) (node : Node)
    (ns : NodeState)
    (hn : st.graph.GetNode nodeID = some node)
    (ht : node.type = NodeType.end_)
    (hns : getA nodeID st.nodeStates = some ns) :
    publishNodeWork (fuel + 1) env s graphID nodeID st now
      = ((completeGraph env
            (saveState s graphID (runningUpd st nodeID ns now)) graphID
            (runningUpd st nodeID ns now) ExecutionStatus.completed "" now).1,
         (completeGraph env
            (saveState s graphID (runningUpd st nodeID ns now)) graphID
            (runningUpd st nodeID ns now) ExecutionStatus.completed "" now).2,
         none) := by
  simp [publishNodeWork, hn, hns, ht, runningUpd, runningNS]

theorem pnw_start_step (fuel : Nat) (env : Env) (s : MState)
    (graphID nodeID : String) (st : GraphState) (now : Nat) (node : Node)
    (ns : NodeState)
    (hn : st.graph.GetNode nodeID = some node)
    (ht : node.type = NodeType.start)
    (hns : getA nodeID st.nodeStates = some ns)
    (hx : findNextNode st.graph nodeID ≠ "") :
    publishNodeWork (fuel + 1) env s graphID nodeID st now
      = publishNodeWork fuel env
          (saveState s graphID (runningUpd st nodeID ns now)) graphID
          (findNextNode st.graph nodeID) (runningUpd st nodeID ns now) now := by
  simp [publishNodeWork, hn, hns, ht, runningUpd, runningNS, hx]

theorem pnw_start_done (fuel : Nat) (env : Env) (s : MState)
    (graphID nodeID : String) (st : GraphState) (now : Nat) (node : Node)
    (ns : NodeState)
    (hn : st.graph.GetNode nodeID = some node)
    (ht : node.type = NodeType.start)
    (hns : getA nodeID st.nodeStates = some ns)
    (hx : findNextNode st.graph nodeID = "") :
    publishNodeWork (fuel + 1) env s graphID nodeID st now
      = (saveState s graphID (runningUpd st nodeID ns now),
         runningUpd st nodeID ns now, none) := by
  simp [publishNodeWork, hn, hns, ht, runningUpd, runningNS, hx]

/-! ## Claim C1 -/

/-- Claim C1, refuted at a concrete reachable input: submit the entry-less
single-node graph, cancel it (the record is Cancelled, a terminal status),
then deliver a successful completion event for node A. The claim says the
event is dropped without mutating the record; the code instead processes
it and drives the Cancelled record to Completed. -/
theorem C1_counterexample :
    (getA "exec-0" c1s2.store).map (fun r => r.status)
        = some ExecutionStatus.cancelled
    ∧ (getA "exec-0" c1s3.store).map (fun r => r.status)
        = some ExecutionStatus.completed := by
  constructor
  · rfl
  · rfl

/-- Claim C1 as amended: terminal statuses are not absorbing.
handleNodeCompleted performs no terminal-status check, so a completion
event for a terminal execution whose node id resolves is processed exactly
as for a running one; in particular an error completion drives the
already-terminal record to Failed. handleTimeout likewise loads the record
without checking its status and drives it to Failed. Only events whose
execution id or node id does not resolve are dropped. -/
theorem C1_terminal_not_absorbing :
    (∀ fuel env s msg st ns e now,
      getA msg.executionID s.store = some st →
      isTerminal st.status = true →
      getA msg.nodeID st.nodeStates = some ns →
      msg.error = some e →
      (getA msg.executionID
          (handleNodeCompleted fuel env s msg now).store).map
        (fun r => r.status) = some ExecutionStatus.failed)
    ∧ (∀ env s graphID st now,
      getA graphID s.store = some st →
      isTerminal st.status = true →
      (getA graphID (handleTimeout env s graphID now).store).map
        (fun r => r.status) = some ExecutionStatus.failed) := by
  constructor
  · intro fuel env s msg st ns e now h1 _ h3 h4
    simp only [handleNodeCompleted, h1, h3, h4, Option.isSome_some,
      Option.getD_some, if_pos, saveState]
    rw [completeGraph_store, getA_setA_self]
    rfl
  · intro env s graphID st now h1 _
    simp only [handleTimeout, h1]
    rw [completeGraph_store, getA_setA_self]
    rfl

/-- Concrete instance of the amended claim C1: the cancelled record wSt
receives a failing completion event and a timeout, and both drive it to
Failed. -/
theorem C1_witness :
    (getA "e1" (handleNodeCompleted 3 envOk wS wMsg 7).store).map
        (fun r => r.status) = some ExecutionStatus.failed
    ∧ (getA "e1" (handleTimeout envOk wS "e1" 7).store).map
        (fun r => r.status) = some ExecutionStatus.failed :=
  ⟨C1_terminal_not_absorbing.1 3 envOk wS wMsg wSt wNs "boom" 7 rfl rfl rfl rfl,
   C1_terminal_not_absorbing.2 envOk wS "e1" wSt 7 rfl rfl⟩

/-! ## Claim C3 -/

/-- Claim C3, refuted at a concrete input: gExe is a valid graph, and in an
environment whose first bus publish fails, the GraphSubmitted publish
performed by Submit after the record is persisted fails, and Submit
returns the bus error instead of success with the minted execution id,
even though the persisted record is durable and Running. -/
theorem C3_counterexample :
    (SubmitGraph 4 envFail0 s0 gExe [] 1).2 = Except.error busErr
    ∧ (getA "exec-0" ((SubmitGraph 4 envFail0 s0 gExe [] 1).1).store).map
        (fun r => r.status) = some ExecutionStatus.running := by
  constructor
  · rfl
  · rfl

/-- Claim C3 as amended: only the entry-node work envelope is best-effort.
If the GraphSubmitted publish on graph.events fails, Submit returns the
bus error to the caller, although the persisted record remains Running in
the store. If instead the graph.events publishes succeed and the entry
node's executor.work publish fails, Submit logs the error and still
returns success with the minted execution id, the record remains Running,
and no work envelope is published. -/
theorem C3_submit_error_on_event_publish_failure :
    (∀ fuel env s g inputs now,
      Validate g = none →
      env.pubFail s.pubAttempts TopicGraphEvents = true →
      (SubmitGraph fuel env s g inputs now).2 = Except.error busErr
      ∧ (getA (mintId s.nextUuid)
          ((SubmitGraph fuel env s g inputs now).1).store).map
          (fun r => r.status) = some ExecutionStatus.running)
    ∧ (∀ fuel env s g inputs now node,
      Validate g = none →
      (∀ n, env.pubFail n TopicGraphEvents = false) →
      (∀ n, env.pubFail n TopicExecutorWork = true) →
      g.GetNode g.entryNode = some node →
      node.type = NodeType.executor →
      (SubmitGraph (fuel + 1) env s g inputs now).2
          = Except.ok (mintId s.nextUuid)
      ∧ (getA (mintId s.nextUuid)
          ((SubmitGraph (fuel + 1) env s g inputs now).1).store).map
          (fun r => r.status) = some ExecutionStatus.running
      ∧ workTargets ((SubmitGraph (fuel + 1) env s g inputs now).1).published
          = workTargets s.published) := by
  constructor
  · intro fuel env s g inputs now hv hfail
    rw [SubmitGraph_pubfail_eq fuel env s g inputs now hv hfail]
    constructor
    · rfl
    · rw [getA_setA_self]
      rfl
  · intro fuel env s g inputs now node hv hok hfail hentry htype
    have hget : getA g.entryNode g.nodes = some node := hentry
    rw [SubmitGraph_valid_eq (fuel + 1) env s g inputs now hv (hok _)]
    rw [pnw_executor_fail fuel env _ (mintId s.nextUuid) g.entryNode
      (initRecord g inputs (mintId s.nextUuid) now) now node
      (pendingNS g.entryNode) hentry htype
      (by simp [initRecord, getA_map_pending, hget])
      (hfail _)]
    refine ⟨rfl, ?_, ?_⟩
    · rw [getA_setA_self]
      rfl
    · simp [workTargets_append, workTargets_graphEvent]

/-- Concrete instance of the amended claim C3: with the first publish
failing, Submit on the valid graph gExe returns the bus error while the
record is stored Running; with only executor.work failing, Submit returns
the minted id, the record is Running and no work envelope was published. -/
theorem C3_witness :
    ((SubmitGraph 3 envFail0 s0 gExe [] 1).2 = Except.error busErr
      ∧ (getA (mintId 0) ((SubmitGraph 3 envFail0 s0 gExe [] 1).1).store).map
          (fun r => r.status) = some ExecutionStatus.running)
    ∧ ((SubmitGraph 4 envWorkFail s0 gExe [] 1).2 = Except.ok (mintId 0)
      ∧ (getA (mintId 0) ((SubmitGraph 4 envWorkFail s0 gExe [] 1).1).store).map
          (fun r => r.status) = some ExecutionStatus.running
      ∧ workTargets ((SubmitGraph 4 envWorkFail s0 gExe [] 1).1).published
          = workTargets s0.published) :=
  ⟨C3_submit_error_on_event_publish_failure.1 3 envFail0 s0 gExe [] 1 rfl rfl,
   C3_submit_error_on_event_publish_failure.2 3 envWorkFail s0 gExe [] 1
     { type := NodeType.executor } rfl (fun _ => rfl) (fun _ => rfl) rfl rfl⟩

/-! ## Claim C4 -/

/-- Claim C4, confirmed: after a successful completion, a non-empty
next_node N in the envelope is dispatched regardless of the graph's edges
(the edges are fully unconstrained here and the work envelope published is
for N); otherwise findNextNode deterministically returns the to endpoint of
the first edge in edges order whose from equals the completed node; and
when the envelope has no next_node and no such edge exists, the record is
driven to Completed with completed_at set. -/
theorem C4_successor_selection :
    (∀ fuel env s msg st ns now nodeN,
      (∀ n t, env.pubFail n t = false) →
      getA msg.executionID s.store = some st →
      getA msg.nodeID st.nodeStates = some ns →
      msg.error = none →
      msg.nextNode ≠ "" →
      st.graph.GetNode msg.nextNode = some nodeN →
      nodeN.type = NodeType.executor →
      (getA msg.nextNode st.nodeStates).isSome = true →
      workTargets ((handleNodeCompleted (fuel + 1) env s msg now).published)
        = workTargets s.published ++ [msg.nextNode])
    ∧ (∀ g n,
      findNextNode g n
        = ((g.edges.find? (fun e => e.from_ = n)).map (fun e => e.to_)).getD "")
    ∧ (∀ fuel env s msg st ns now,
      getA msg.executionID s.store = some st →
      getA msg.nodeID st.nodeStates = some ns →
      msg.error = none →
      msg.nextNode = "" →
      findNextNode st.graph msg.nodeID = "" →
      (getA msg.executionID
          (handleNodeCompleted fuel env s msg now).store).map
        (fun r => (r.status, r.completedAt))
        = some (ExecutionStatus.completed, some now)) := by
  refine ⟨?_, ?_, ?_⟩
  · intro fuel env s msg st ns now nodeN hE h1 h2 hne hnn hN htN hNs
    rw [hnc_success_next (fuel + 1) env s msg st ns now h1 h2 hne hnn]
    have h5 : (getA msg.nextNode (succUpd st msg ns now).nodeStates).isSome
        = true := getA_setA_isSome _ _ _ _ hNs
    obtain ⟨ns2, hns2⟩ := Option.isSome_iff_exists.mp h5
    rw [pnw_executor_ok fuel env _ msg.executionID msg.nextNode
      (succUpd st msg ns now) now nodeN ns2 hN htN hns2 (hE _ _) (hE _ _)]
    simp [workTargets_append, workTargets_exec_pair, saveState]
  · intro g n
    show (match g.GetOutgoingEdges n with
          | [] => ""
          | e :: _ => e.to_) = _
    unfold Graph.GetOutgoingEdges
    induction g.edges with
    | nil => rfl
    | cons hd tl ih =>
      by_cases h : hd.from_ = n
      · simp [List.filter, List.find?, h]
      · simp only [List.filter, List.find?, h, decide_False] at ih ⊢
        simpa using ih
  · intro fuel env s msg st ns now h1 h2 hne hnn hfind
    rw [hnc_success_complete fuel env s msg st ns now h1 h2 hne hnn hfind]
    rw [completeGraph_store, getA_setA_self]
    rfl

/-- Concrete instance of claim C4: the router completion for R carrying
next_node Y dispatches Y even though the only edge from R points to X;
findNextNode on the linear graph picks the first matching edge; and a
completion with no successor drives the record to Completed. -/
theorem C4_witness :
    workTargets ((handleNodeCompleted 3 envOk c4s c4msg 5).published)
        = workTargets c4s.published ++ ["Y"]
    ∧ findNextNode gLin "A"
        = ((gLin.edges.find? (fun e => e.from_ = "A")).map
            (fun e => e.to_)).getD ""
    ∧ (getA "e5" (handleNodeCompleted 3 envOk c4sc c4msgc 9).store).map
        (fun r => (r.status, r.completedAt))
        = some (ExecutionStatus.completed, some 9) :=
  ⟨C4_successor_selection.1 2 envOk c4s c4msg c4st
      { nodeID := "R", status := ExecutionStatus.running } 5 nodeExec
      (fun _ _ => rfl) rfl rfl rfl (by decide) rfl rfl rfl,
   C4_successor_selection.2.1 gLin "A",
   C4_successor_selection.2.2 3 envOk c4sc c4msgc c4stc wNs 9 rfl rfl rfl
      rfl rfl⟩

/-! ## Claim C5 -/

/-- Claim C5, confirmed: a completion envelope carrying an error for a
non-terminal execution sets the named node's state to Failed with the
envelope's error string and completed_at, drives the record to Failed with
the record's error equal to the node's error message and completed_at set,
dispatches no successor (the work-envelope trace is unchanged), and leaves
the state of every other node untouched, so nodes not yet dispatched
remain Pending. A non-terminal record always carries an empty error, which
the hypothesis on st.error records. -/
theorem C5_error_completion_fails_record :
    ∀ fuel env s msg st ns e now,
      getA msg.executionID s.store = some st →
      isTerminal st.status = false →
      st.error = "" →
      getA msg.nodeID st.nodeStates = some ns →
      msg.error = some e →
      (getA msg.executionID
          (handleNodeCompleted fuel env s msg now).store).map
        (fun r => (r.status, r.error, r.completedAt))
        = some (ExecutionStatus.failed, e, some now)
      ∧ (getA msg.executionID
          (handleNodeCompleted fuel env s msg now).store).bind
        (fun r => getA msg.nodeID r.nodeStates) = some (failedNS ns e now)
      ∧ workTargets (handleNodeCompleted fuel env s msg now).published
        = workTargets s.published
      ∧ ∀ k, k ≠ msg.nodeID →
          (getA msg.executionID
              (handleNodeCompleted fuel env s msg now).store).bind
            (fun r => getA k r.nodeStates) = getA k st.nodeStates := by
  intro fuel env s msg st ns e now h1 _ hre h2 he
  rw [hnc_error_eq fuel env s msg st ns e now h1 h2 he]
  refine ⟨?_, ?_, ?_, ?_⟩
  · rw [completeGraph_store, getA_setA_self]
    rcases eq_or_ne e "" with he' | he'
    · subst he'
      simp [completedRecord, failUpd, hre]
    · simp [completedRecord, failUpd, he']
  · rw [completeGraph_store, getA_setA_self]
    simp [completedRecord, failUpd, getA_setA_self]
  · rw [completeGraph_workTargets]
    rfl
  · intro k hk
    rw [completeGraph_store, getA_setA_self]
    simp [completedRecord, failUpd, getA_setA_ne _ _ hk]

/-- Concrete instance of claim C5: the failing completion for node A
drives the c5st record to Failed with error boom and completed_at set,
while node B's state is untouched (still Pending). -/
theorem C5_witness :
    (getA "e6" (handleNodeCompleted 3 envOk c5s c5msg 7).store).map
        (fun r => (r.status, r.error, r.completedAt))
        = some (ExecutionStatus.failed, "boom", some 7)
    ∧ (getA "e6" (handleNodeCompleted 3 envOk c5s c5msg 7).store).bind
        (fun r => getA "A" r.nodeStates) = some (failedNS c5nsA "boom" 7)
    ∧ (getA "e6" (handleNodeCompleted 3 envOk c5s c5msg 7).store).bind
        (fun r => getA "B" r.nodeStates) = getA "B" c5st.nodeStates :=
  have h := C5_error_completion_fails_record 3 envOk c5s c5msg c5st c5nsA
    "boom" 7 rfl rfl rfl rfl rfl
  ⟨h.1, h.2.1, h.2.2.2 "B" (by decide)⟩

/-! ## Claim C9 -/

/-- Claim C9, confirmed: dispatching an end node marks the node Running
with started_at set and saves, then drives the record to Completed without
ever setting the node's completed_at and without publishing any work
envelope, so the terminal record holds a node whose state is Running. -/
theorem C9_end_node_left_running :
    ∀ fuel env s graphID nodeID st now node ns,
      st.graph.GetNode nodeID = some node →
      node.type = NodeType.end_ →
      getA nodeID st.nodeStates = some ns →
      ns.completedAt = none →
      (publishNodeWork (fuel + 1) env s graphID nodeID st now).2.2 = none
      ∧ (getA graphID
          ((publishNodeWork (fuel + 1) env s graphID nodeID st now).1).store).map
        (fun r => r.status) = some ExecutionStatus.completed
      ∧ (getA graphID
          ((publishNodeWork (fuel + 1) env s graphID nodeID st now).1).store).bind
        (fun r => getA nodeID r.nodeStates) = some (runningNS ns now)
      ∧ (runningNS ns now).status = ExecutionStatus.running
      ∧ (runningNS ns now).startedAt = some now
      ∧ (runningNS ns now).completedAt = none
      ∧ workTargets
          ((publishNodeWork (fuel + 1) env s graphID nodeID st now).1).published
        = workTargets s.published := by
  intro fuel env s graphID nodeID st now node ns hn ht hns hc
  rw [pnw_end fuel env s graphID nodeID st now node ns hn ht hns]
  refine ⟨rfl, ?_, ?_, rfl, rfl, ?_, ?_⟩
  · rw [completeGraph_store, getA_setA_self]
    rfl
  · rw [completeGraph_store, getA_setA_self]
    simp [completedRecord, runningUpd, getA_setA_self]
  · simp [runningNS, hc]
  · rw [completeGraph_workTargets]
    rfl

/-- Concrete instance of claim C9: dispatching the end node E completes the
e9 record while E's own state stays Running with no completed_at. -/
theorem C9_witness :
    (publishNodeWork 3 envOk c9s "e9" "E" c9st 4).2.2 = none
    ∧ (getA "e9"
        ((publishNodeWork 3 envOk c9s "e9" "E" c9st 4).1).store).map
      (fun r => r.status) = some ExecutionStatus.completed
    ∧ (getA "e9"
        ((publishNodeWork 3 envOk c9s "e9" "E" c9st 4).1).store).bind
      (fun r => getA "E" r.nodeStates) = some (runningNS c9ns 4)
    ∧ (runningNS c9ns 4).completedAt = none :=
  have h := C9_end_node_left_running 2 envOk c9s "e9" "E" c9st 4
    { type := NodeType.end_ } c9ns rfl rfl rfl rfl
  ⟨h.1, h.2.1, h.2.2.1, h.2.2.2.2.2.1⟩

/-! ## Claim C6 -/

/-- Claim C6, refuted at a concrete input: submitting the valid single
executor graph gExe succeeds, but by the time Submit returns the entry
node has already been dispatched, so loading the record shows node A with
status Running, not Pending as the claim requires of every node. -/
theorem C6_counterexample :
    (SubmitGraph 4 envOk s0 gExe [] 1).2 = Except.ok "exec-0"
    ∧ (getA "exec-0" ((SubmitGraph 4 envOk s0 gExe [] 1).1).store).bind
        (fun r => (getA "A" r.nodeStates).map (fun q => q.status))
      = some ExecutionStatus.running := by
  constructor
  · rfl
  · rfl

/-- Claim C6 as amended: Submit builds and persists an initial record with
status Running, submitted_at = now, the submitted graph embedded and every
node Pending, but then dispatches the entry node before returning; so
after a successful Submit of a valid graph whose entry node is an
executor, the loaded record has status Running, submitted_at set, the
graph embedded, the entry node Running with started_at set, and every
other node still Pending. The returned id is the minted uuid, whose
freshness is an assumption on uuid.New outside the model. -/
theorem C6_submit_dispatches_entry :
    ∀ fuel env s g inputs now node,
      Validate g = none →
      (∀ n t, env.pubFail n t = false) →
      g.GetNode g.entryNode = some node →
      node.type = NodeType.executor →
      (SubmitGraph (fuel + 1) env s g inputs now).2
          = Except.ok (mintId s.nextUuid)
      ∧ (getA (mintId s.nextUuid)
          ((SubmitGraph (fuel + 1) env s g inputs now).1).store).map
        (fun r => (r.status, r.graph, r.submittedAt, r.inputs))
        = some (ExecutionStatus.running, g, now, inputs)
      ∧ (getA (mintId s.nextUuid)
          ((SubmitGraph (fuel + 1) env s g inputs now).1).store).bind
        (fun r => getA g.entryNode r.nodeStates)
        = some (runningNS (pendingNS g.entryNode) now)
      ∧ ∀ k, k ≠ g.entryNode →
          (getA (mintId s.nextUuid)
              ((SubmitGraph (fuel + 1) env s g inputs now).1).store).bind
            (fun r => getA k r.nodeStates)
          = (getA k g.nodes).map (fun _ => pendingNS k) := by
  intro fuel env s g inputs now node hv hE hentry htype
  have hget : getA g.entryNode g.nodes = some node := hentry
  rw [SubmitGraph_valid_eq (fuel + 1) env s g inputs now hv (hE _ _)]
  rw [pnw_executor_ok fuel env _ (mintId s.nextUuid) g.entryNode
    (initRecord g inputs (mintId s.nextUuid) now) now node
    (pendingNS g.entryNode) hentry htype
    (by simp [initRecord, getA_map_pending, hget]) (hE _ _) (hE _ _)]
  refine ⟨rfl, ?_, ?_, ?_⟩
  · rw [getA_setA_self]
    rfl
  · rw [getA_setA_self]
    simp [runningUpd, initRecord, getA_setA_self]
  · intro k hk
    rw [getA_setA_self]
    simp only [runningUpd, Option.some_bind]
    rw [getA_setA_ne _ _ hk]
    simp [initRecord, getA_map_pending]

/-- Concrete instance of the amended claim C6: after submitting gExe the
record carries the graph with status Running and submitted_at, node A is
Running with started_at set, and a node id outside the graph resolves to
nothing. -/
theorem C6_witness :
    (SubmitGraph 4 envOk s0 gExe [] 1).2 = Except.ok (mintId 0)
    ∧ (getA (mintId 0) ((SubmitGraph 4 envOk s0 gExe [] 1).1).store).map
        (fun r => (r.status, r.graph, r.submittedAt, r.inputs))
        = some (ExecutionStatus.running, gExe, 1, [])
    ∧ (getA (mintId 0) ((SubmitGraph 4 envOk s0 gExe [] 1).1).store).bind
        (fun r => getA "A" r.nodeStates)
        = some (runningNS (pendingNS "A") 1)
    ∧ (getA (mintId 0) ((SubmitGraph 4 envOk s0 gExe [] 1).1).store).bind
        (fun r => getA "Z" r.nodeStates)
        = (getA "Z" gExe.nodes).map (fun _ => pendingNS "Z") :=
  have h := C6_submit_dispatches_entry 3 envOk s0 gExe [] 1 nodeExec rfl
    (fun _ _ => rfl) rfl rfl
  ⟨h.1, h.2.1, h.2.2.1, h.2.2.2 "Z" (by decide)⟩

/-! ## Claim C7 -/

/-- Claim C7, confirmed: for every graph violating an admission invariant
I1 to I5, the validator reports an error, and SubmitGraph returns the
wrapped ValidationError while leaving the entire world (store included)
untouched, for every fuel, environment, inputs and clock. -/
theorem C7_invalid_graph_rejected :
    ∀ g, violatesAdmission g →
      ∃ err, Validate g = some err
        ∧ ∀ fuel env s inputs now,
            SubmitGraph fuel env s g inputs now
              = (s, Except.error ("validation failed: " ++ err)) := by
  intro g hviol
  have hne : Validate g ≠ none := by
    intro hnone
    have hs := Validate_none_sound g hnone
    rcases hviol with h | h | h | h | h | h
    · exact hs.2.2.1 h
    · exact hs.1 h
    · exact hs.2.1 h
    · obtain ⟨e, he, hor⟩ := h
      have hend := hs.2.2.2.2.2 e he
      rcases hor with h' | h'
      · rw [h'] at hend
        exact absurd hend.1 (by simp)
      · rw [h'] at hend
        exact absurd hend.2 (by simp)
    · obtain ⟨p, hp, hempty⟩ := h
      exact hs.2.2.2.1 p hp hempty
    · have hent := hs.2.2.2.2.1 h.1
      rw [h.2] at hent
      exact absurd hent (by simp)
  cases hv : Validate g with
  | none => exact absurd hv hne
  | some err =>
    refine ⟨err, rfl, ?_⟩
    intro fuel env s inputs now
    simp [SubmitGraph, hv]

/-- Concrete instance of claim C7: the dangling-edge graph gBad is
rejected with the DanglingEdge message and Submit writes nothing. -/
theorem C7_witness :
    Validate gBad = some "edge references non-existent source node: X"
    ∧ SubmitGraph 3 envOk s0 gBad [] 0
        = (s0, Except.error
            "validation failed: edge references non-existent source node: X") := by
  obtain ⟨err, hv, hall⟩ := C7_invalid_graph_rejected gBad
    (by unfold violatesAdmission; decide)
  have h0 : Validate gBad = some "edge references non-existent source node: X" := rfl
  rw [h0] at hv
  have herr := (Option.some.inj hv).symm
  subst herr
  exact ⟨h0, hall 3 envOk s0 [] 0⟩

/-! ## Claim C8 -/

/-- Claim C8, confirmed: dispatch of node n marks its state Running with
started_at = now and persists it, then by type: an executor publishes the
work envelope on executor.work and a router on router.work, each carrying
node_id, node_type, graph_id = execution id, state = the execution's
inputs and node_state = the NodeStates snapshot (the explicit result
worlds show the saved record and the published envelopes); an end node
publishes no work envelope and immediately drives the record to Completed;
a start node publishes nothing itself and recursively dispatches the
findNextNode successor. -/
theorem C8_dispatch_by_node_type :
    (∀ fuel env s graphID nodeID st now node ns,
      (∀ n t, env.pubFail n t = false) →
      st.graph.GetNode nodeID = some node →
      node.type = NodeType.executor →
      getA nodeID st.nodeStates = some ns →
      publishNodeWork (fuel + 1) env s graphID nodeID st now
        = ({ store := setA graphID (runningUpd st nodeID ns now) s.store,
             published := s.published
               ++ [(TopicExecutorWork,
                    workEnvelope s.nextUuid graphID nodeID NodeType.executor
                      (runningUpd st nodeID ns now) now),
                   (TopicGraphEvents,
                    nodeStartedEvent (s.nextUuid + 1) graphID nodeID now)],
             pubAttempts := s.pubAttempts + 2,
             executions := s.executions,
             nextUuid := s.nextUuid + 2 },
           runningUpd st nodeID ns now, none))
    ∧ (∀ fuel env s graphID nodeID st now node ns,
      (∀ n t, env.pubFail n t = false) →
      st.graph.GetNode nodeID = some node →
      node.type = NodeType.router →
      getA nodeID st.nodeStates = some ns →
      publishNodeWork (fuel + 1) env s graphID nodeID st now
        = ({ store := setA graphID (runningUpd st nodeID ns now) s.store,
             published := s.published
               ++ [(TopicRouterWork,
                    workEnvelope s.nextUuid graphID nodeID NodeType.router
                      (runningUpd st nodeID ns now) now),
                   (TopicGraphEvents,
                    nodeStartedEvent (s.nextUuid + 1) graphID nodeID now)],
             pubAttempts := s.pubAttempts + 2,
             executions := s.executions,
             nextUuid := s.nextUuid + 2 },
           runningUpd st nodeID ns now, none))
    ∧ (∀ fuel env s graphID nodeID st now node ns,
      st.graph.GetNode nodeID = some node →
      node.type = NodeType.end_ →
      getA nodeID st.nodeStates = some ns →
      workTargets
          ((publishNodeWork (fuel + 1) env s graphID nodeID st now).1.published)
        = workTargets s.published
      ∧ (getA graphID
          ((publishNodeWork (fuel + 1) env s graphID nodeID st now).1).store).map
        (fun r => (r.status, r.completedAt))
        = some (ExecutionStatus.completed, some now))
    ∧ (∀ fuel env s graphID nodeID st now node ns,
      st.graph.GetNode nodeID = some node →
      node.type = NodeType.start →
      getA nodeID st.nodeStates = some ns →
      findNextNode st.graph nodeID ≠ "" →
      publishNodeWork (fuel + 1) env s graphID nodeID st now
        = publishNodeWork fuel env
            (saveState s graphID (runningUpd st nodeID ns now)) graphID
            (findNextNode st.graph nodeID) (runningUpd st nodeID ns now)
            now) := by
  refine ⟨?_, ?_, ?_, ?_⟩
  · intro fuel env s graphID nodeID st now node ns hE hn ht hns
    exact pnw_executor_ok fuel env s graphID nodeID st now node ns hn ht hns
      (hE _ _) (hE _ _)
  · intro fuel env s graphID nodeID st now node ns hE hn ht hns
    exact pnw_router_ok fuel env s graphID nodeID st now node ns hn ht hns
      (hE _ _) (hE _ _)
  · intro fuel env s graphID nodeID st now node ns hn ht hns
    rw [pnw_end fuel env s graphID nodeID st now node ns hn ht hns]
    constructor
    · rw [completeGraph_workTargets]
      rfl
    · rw [completeGraph_store, getA_setA_self]
      rfl
  · intro fuel env s graphID nodeID st now node ns hn ht hns hx
    exact pnw_start_step fuel env s graphID nodeID st now node ns hn ht hns
      hx

/-- Concrete instance of claim C8: dispatching executor A produces exactly
the saved Running node state plus the executor.work envelope and
node.started event; dispatching the start node A of the linear graph
recurses into dispatching B; dispatching an end node completes the record
without any work publish. -/
theorem C8_witness :
    publishNodeWork 3 envOk c4sc "e5" "A" c4stc 6
        = ({ store := setA "e5" (runningUpd c4stc "A" wNs 6) c4sc.store,
             published := c4sc.published
               ++ [(TopicExecutorWork,
                    workEnvelope 0 "e5" "A" NodeType.executor
                      (runningUpd c4stc "A" wNs 6) 6),
                   (TopicGraphEvents, nodeStartedEvent 1 "e5" "A" 6)],
             pubAttempts := 2,
             executions := c4sc.executions,
             nextUuid := 2 },
           runningUpd c4stc "A" wNs 6, none)
    ∧ publishNodeWork 3 envOk c8s "e8" "A" c8st 2
        = publishNodeWork 2 envOk
            (saveState c8s "e8" (runningUpd c8st "A" c8ns 2)) "e8"
            (findNextNode c8st.graph "A") (runningUpd c8st "A" c8ns 2) 2
    ∧ workTargets ((publishNodeWork 3 envOk c9s "e9" "E" c9st 4).1.published)
        = workTargets c9s.published :=
  have h := C8_dispatch_by_node_type
  ⟨h.1 2 envOk c4sc "e5" "A" c4stc 6 nodeExec wNs (fun _ _ => rfl) rfl rfl
      rfl,
   h.2.2.2 2 envOk c8s "e8" "A" c8st 2 { type := NodeType.start } c8ns rfl
      rfl rfl (by decide),
   (h.2.2.1 2 envOk c9s "e9" "E" c9st 4 { type := NodeType.end_ } c9ns rfl
      rfl rfl).1⟩

/-! ## Claim C10 -/

/-- Claim C10, confirmed: for an otherwise-valid graph whose entry_node is
the empty string, validation succeeds because the entry-node check applies
only to a non-empty entry_node; Submit succeeds and returns the minted
execution id; no work envelope is published because the entry dispatch
fails on the unresolvable empty node id, leaving only the logged error;
and the loaded record stays Running with every node Pending, until the
deadline supervisor eventually fires. -/
theorem C10_empty_entry_submits_without_dispatch :
    ∀ fuel env s g inputs now,
      g.id ≠ "" → g.version ≠ "" → g.nodes ≠ [] →
      validateNodes g.nodes [] = none →
      validateEdges g g.edges = none →
      g.entryNode = "" →
      (∀ n t, env.pubFail n t = false) →
      Validate g = none
      ∧ (SubmitGraph (fuel + 1) env s g inputs now).2
          = Except.ok (mintId s.nextUuid)
      ∧ workTargets ((SubmitGraph (fuel + 1) env s g inputs now).1).published
          = workTargets s.published
      ∧ (getA (mintId s.nextUuid)
          ((SubmitGraph (fuel + 1) env s g inputs now).1).store).map
        (fun r => r.status) = some ExecutionStatus.running
      ∧ ∀ k, (getA (mintId s.nextUuid)
            ((SubmitGraph (fuel + 1) env s g inputs now).1).store).bind
          (fun r => getA k r.nodeStates)
          = (getA k g.nodes).map (fun _ => pendingNS k) := by
  intro fuel env s g inputs now hid hver hnn hvns hves hentry hE
  have hv : Validate g = none := by
    have hempty : ¬(g.nodes.isEmpty = true) := by
      simp only [List.isEmpty_iff]
      exact hnn
    simp [Validate, hid, hver, hempty, hvns, hentry, hves]
  have hnokey : getA "" g.nodes = none :=
    getA_eq_none_of_no_key "" g.nodes (validateNodes_none_ids g.nodes [] hvns)
  have hgn : (initRecord g inputs (mintId s.nextUuid) now).graph.GetNode
      g.entryNode = none := by
    rw [hentry]
    exact hnokey
  have heq := SubmitGraph_valid_eq (fuel + 1) env s g inputs now hv (hE _ _)
  rw [pnw_notFound fuel env _ (mintId s.nextUuid) g.entryNode
    (initRecord g inputs (mintId s.nextUuid) now) now hgn] at heq
  refine ⟨hv, ?_, ?_, ?_, ?_⟩
  · rw [heq]
  · rw [heq]
    simp [workTargets_append, workTargets_graphEvent]
  · rw [heq, getA_setA_self]
    rfl
  · intro k
    rw [heq, getA_setA_self]
    simp [initRecord, getA_map_pending]

/-- Concrete instance of claim C10: submitting gNoEntry (entry_node empty)
succeeds, publishes no work envelope, and leaves the record Running with
node A Pending. -/
theorem C10_witness :
    Validate gNoEntry = none
    ∧ (SubmitGraph 4 envOk s0 gNoEntry [] 1).2 = Except.ok (mintId 0)
    ∧ workTargets ((SubmitGraph 4 envOk s0 gNoEntry [] 1).1).published
        = workTargets s0.published
    ∧ (getA (mintId 0) ((SubmitGraph 4 envOk s0 gNoEntry [] 1).1).store).map
        (fun r => r.status) = some ExecutionStatus.running
    ∧ (getA (mintId 0) ((SubmitGraph 4 envOk s0 gNoEntry [] 1).1).store).bind
        (fun r => getA "A" r.nodeStates)
        = (getA "A" gNoEntry.nodes).map (fun _ => pendingNS "A") :=
  have h := C10_empty_entry_submits_without_dispatch 3 envOk s0 gNoEntry []
    1 (by decide) (by decide) (by decide) rfl rfl rfl (fun _ _ => rfl)
  ⟨h.1, h.2.1, h.2.2.1, h.2.2.2.1, h.2.2.2.2 "A"⟩

/-! ## Claim C2 -/

/-- Claim C2, refuted at a concrete reachable input: after the cancellation
in c1s2 the record is terminal (Cancelled) and the tracker entry has been
removed, so a second CancelExecution returns the execution-not-found error,
not the AlreadyTerminal error the claim requires. -/
theorem C2_counterexample :
    (getA "exec-0" c1s2.store).map (fun r => r.status)
        = some ExecutionStatus.cancelled
    ∧ (CancelExecution envOk c1s2 "exec-0" 4).2
        = Except.error "execution not found: exec-0" := by
  constructor
  · rfl
  · rfl

/-- Claim C2 as amended: CancelExecution consults only the in-memory
tracker. When the tracker has no entry for the execution, which is the
normal situation for a terminal record since completeGraph and a completed
Cancel both remove the entry, it returns the execution-not-found error and
leaves the world untouched. The AlreadyTerminal error is returned, again
without mutating anything, only when a tracker entry still carries a
terminal status, which arises only from a previous Cancel that failed
after marking the tracker. -/
theorem C2_cancel_terminal_returns_not_found :
    (∀ env s graphID now,
      getA graphID s.executions = none →
      CancelExecution env s graphID now
        = (s, Except.error ("execution not found: " ++ graphID)))
    ∧ (∀ env s graphID ec now,
      getA graphID s.executions = some ec →
      isTerminal ec.status = true →
      CancelExecution env s graphID now
        = (s, Except.error
            ("execution already in terminal state: " ++ statusStr ec.status))) := by
  constructor
  · intro env s graphID now h1
    simp only [CancelExecution, h1]
  · intro env s graphID ec now h1 h2
    simp only [CancelExecution, h1, h2, if_pos]

/-- Concrete instance of the amended claim C2: a missing tracker entry
yields the not-found error, and a terminal tracker entry yields the
already-terminal error; neither mutates the world. -/
theorem C2_witness :
    CancelExecution envOk wS "e1" 9
        = (wS, Except.error "execution not found: e1")
    ∧ CancelExecution envOk wS3 "e2" 9
        = (wS3, Except.error "execution already in terminal state: completed") :=
  ⟨C2_cancel_terminal_returns_not_found.1 envOk wS "e1" 9 rfl,
   C2_cancel_terminal_returns_not_found.2 envOk wS3 "e2" wEc 9 rfl rfl⟩

end Dago
